import Mathlib

/-!
Verification of the real-time interaction core of the igssax blog-app
backend: the reaction toggle engine with its cached aggregate summaries,
the live-stream chat moderation pipeline, presence tracking with viewer
counts and watch time, stream bans, and notification creation.  Each
definition is a shallow embedding of the corresponding Python function;
machine state (database rows, the key/value cache, moderation logs) is
passed explicitly.
-/

namespace Igssax

/-! ## Generic list helpers

Django's `queryset.filter(...).first()` returns the first matching row,
`row.save()` updates exactly that row, and `row.delete()` deletes exactly
that row.  `delFirst` / `modFirst` model delete/update of the row that
`filter(...).first()` found. -/

def delFirst (p : α → Bool) : List α → List α
  | [] => []
  | a :: l => if p a then l else a :: delFirst p l

def modFirst (p : α → Bool) (f : α → α) : List α → List α
  | [] => []
  | a :: l => if p a then f a :: l else a :: modFirst p f l

/-! ## Reactions (`reactions` app)

`Reaction` embeds `reactions/models.py::Reaction`: one row per
(user, content_type, object_id) with a string `reaction_type`; the
target is identified by the (content-type id, object id) pair. -/

structure Reaction where
  user : Nat
  ctype : Nat
  objId : Nat
  kind : String
deriving Repr, DecidableEq

/-- The row predicate of
`Reaction.objects.filter(user=user, content_type=ct, object_id=obj_id)`. -/
def keyM (u ct oid : Nat) (r : Reaction) : Bool :=
  r.user == u && r.ctype == ct && r.objId == oid

/-- Two rows collide on the `unique_together ("user", "content_type",
"object_id")` constraint. -/
def sameKey (r s : Reaction) : Bool :=
  r.user == s.user && r.ctype == s.ctype && r.objId == s.objId

/-- The store satisfies the `unique_together` constraint of
`Reaction.Meta`: no two rows share (user, content_type, object_id). -/
def uniqKeys : List Reaction → Bool
  | [] => true
  | r :: rs => rs.all (fun s => !(sameKey r s)) && uniqKeys rs

/-- All rows of the store for one (user, target) key, in store order
(`filter(user=..., content_type=..., object_id=...)`). -/
def recsFor (store : List Reaction) (u ct oid : Nat) : List Reaction :=
  store.filter (keyM u ct oid)

/-- The zero-filled per-kind summary dict built by
`reactions/utils/cache_utils.py::get_reaction_summary_cached`
(the six kinds of `REACTION_TYPES`). -/
structure RSummary where
  like : Nat
  love : Nat
  haha : Nat
  wow : Nat
  sad : Nat
  angry : Nat
deriving Repr, DecidableEq

/-- Number of live rows of one kind for a target
(`.values("reaction_type").annotate(count=Count("id"))`). -/
def kindCount (store : List Reaction) (ct oid : Nat) (k : String) : Nat :=
  (store.filter (fun r => r.ctype == ct && r.objId == oid && r.kind == k)).length

/-- The fresh summary computed from the database when the cache misses:
grouped count by kind, zero-filled for kinds with no rows. -/
def computeSummary (store : List Reaction) (ct oid : Nat) : RSummary :=
  { like := kindCount store ct oid "like"
    love := kindCount store ct oid "love"
    haha := kindCount store ct oid "haha"
    wow := kindCount store ct oid "wow"
    sad := kindCount store ct oid "sad"
    angry := kindCount store ct oid "angry" }

/-- The Django cache keyed by `reaction_summary:<model>:<id>`, restricted
to the reaction-summary entries: the key is the (content-type, object id)
pair. -/
abbrev Cache := List ((Nat × Nat) × RSummary)

def cacheGet (c : Cache) (key : Nat × Nat) : Option RSummary :=
  (List.find? (fun e => e.1 == key) c).map (fun e => e.2)

/-- `cache.delete(key)` — `invalidate_reaction_cache`. -/
def cacheDelete (c : Cache) (key : Nat × Nat) : Cache :=
  List.filter (fun e => !(e.1 == key)) c

/-- `cache.set(key, summary, CACHE_TIMEOUT)`. -/
def cacheSet (c : Cache) (key : Nat × Nat) (v : RSummary) : Cache :=
  (key, v) :: cacheDelete c key

/-- Combined durable + cache state of the reactions subsystem. -/
structure RState where
  store : List Reaction
  cache : Cache
deriving Repr, DecidableEq

/-- `get_reaction_summary_cached` (`reactions/utils/cache_utils.py`):
return the cached summary when present (a cached summary dict is always
non-empty, hence truthy), else compute from the rows and cache it. -/
def get_reaction_summary_cached (st : RState) (ct oid : Nat) : RSummary × RState :=
  match cacheGet st.cache (ct, oid) with
  | some s => (s, st)
  | none =>
      let s := computeSummary st.store ct oid
      (s, { st with cache := cacheSet st.cache (ct, oid) s })

inductive ToggleAction where
  | created
  | updated
  | removed
deriving Repr, DecidableEq

/-- The shared store mutation of `ReactionViewSet.toggle`
(`reactions/api/viewsets.py`) and `ReactionConsumer.handle_toggle`
(`reactions/consumers.py`): look up the caller's existing row for the
target with `filter(...).first()`; none → create; same kind → delete that
row; different kind → overwrite the kind on that row. -/
def toggleStore (store : List Reaction) (u ct oid : Nat) (k : String) :
    ToggleAction × List Reaction :=
  match (store.filter (keyM u ct oid)).head? with
  | none => (ToggleAction.created, ⟨u, ct, oid, k⟩ :: store)
  | some existing =>
      if existing.kind == k then
        (ToggleAction.removed, delFirst (keyM u ct oid) store)
      else
        (ToggleAction.updated,
          modFirst (keyM u ct oid) (fun r => { r with kind := k }) store)

/-- `ReactionViewSet.toggle`, the HTTP path: every branch ends in
`invalidate_reaction_cache` (directly for `removed`, via
`_after_reaction_change` for `created`/`updated`). -/
def toggle (st : RState) (u ct oid : Nat) (k : String) : ToggleAction × RState :=
  let out := toggleStore st.store u ct oid k
  (out.1, { store := out.2, cache := cacheDelete st.cache (ct, oid) })

/-- `ReactionConsumer.handle_toggle`, the WebSocket path: the same store
mutation, but no cache invalidation; it then reads the summary through
`get_reaction_summary_cached` to broadcast it. -/
def handle_toggle (st : RState) (u ct oid : Nat) (k : String) :
    ToggleAction × RSummary × RState :=
  let out := toggleStore st.store u ct oid k
  let st1 : RState := { st with store := out.2 }
  let read := get_reaction_summary_cached st1 ct oid
  (out.1, read.1, read.2)

/-! ## Live-stream reactions (`livestream` app)

`StreamReaction` has `unique_together ["stream", "user",
"reaction_type"]` — the kind is part of the key. -/

structure StreamReaction where
  stream : Nat
  user : Nat
  kind : String
deriving Repr, DecidableEq

/-- `LiveStreamConsumer.save_reaction` (`livestream/consumers.py`):
`StreamReaction.objects.get_or_create(stream=stream, user=user,
reaction_type=reaction_type)` — no toggle-off, no kind replacement. -/
def save_reaction (store : List StreamReaction) (s u : Nat) (k : String) :
    List StreamReaction :=
  if store.any (fun r => r.stream == s && r.user == u && r.kind == k) then store
  else ⟨s, u, k⟩ :: store

/-- Rows a user holds on one stream. -/
def streamRecsFor (store : List StreamReaction) (s u : Nat) : List StreamReaction :=
  store.filter (fun r => r.stream == s && r.user == u)

/-! ## Chat moderation pipeline (`livestream` app) -/

/-- Persisted moderation state of a `StreamMessage` row
(`livestream/models.py`). -/
structure Msg where
  content : String
  is_flagged : Bool
  flag_count : Nat
  is_moderated : Bool
deriving Repr, DecidableEq

/-- A `StreamModerationLog` row; `performedBy = none` is
`performed_by=None`, the system actor. -/
structure LogEntry where
  action : String
  performedBy : Option Nat
deriving Repr, DecidableEq

/-- The fixed denylist of `handle_new_message`
(`livestream/signals/message_signals.py`). -/
def suspicious_keywords : List String :=
  ["spam", "http://", "https://", "buy now", "click here"]

/-- Character-list prefix test. -/
def startsWithB : List Char → List Char → Bool
  | [], _ => true
  | _ :: _, [] => false
  | a :: as, b :: bs => a == b && startsWithB as bs

/-- Character-list substring test (`needle in haystack`). -/
def containsSeq (needle : List Char) : List Char → Bool
  | [] => startsWithB needle []
  | b :: bs => startsWithB needle (b :: bs) || containsSeq needle bs

/-- Per-character lowercasing, as `str.lower()` acts on the ASCII range
the denylist keywords live in. -/
def lowerChar (ch : Char) : Char :=
  if 65 ≤ ch.toNat ∧ ch.toNat ≤ 90 then Char.ofNat (ch.toNat + 32) else ch

/-- The character sequence of `content.lower()`. -/
def lowerData (s : String) : List Char :=
  s.data.map lowerChar

/-- `keyword in msg_lower` for one keyword. -/
def containsKw (content kw : String) : Bool :=
  containsSeq kw.data (lowerData content)

/-- `any(keyword in msg_lower for keyword in suspicious_keywords)` with
`msg_lower = instance.content.lower()`. -/
def suspiciousB (content : String) : Bool :=
  suspicious_keywords.any (fun kw => containsKw content kw)

/-- The stream fields the moderation pipeline reads.  `hasAnalytics`
models `hasattr(instance.stream, "analytics")`. -/
structure StreamRec where
  hasAnalytics : Bool
deriving Repr, DecidableEq

/-- `handle_livestream_creation` (`livestream/signals/livestream_signals.py`):
on creation of a `LiveStream`, a `StreamAnalytics` row is created for it,
so every stream created through the application has analytics. -/
def handle_livestream_creation (s : StreamRec) (created : Bool) : StreamRec :=
  if created then { s with hasAnalytics := true } else s

/-- A freshly persisted `LiveStream` after its post-save signal ran. -/
def createStream : StreamRec :=
  handle_livestream_creation { hasAnalytics := false } true

/-- `handle_new_message` (`livestream/signals/message_signals.py`), the
keyword auto-flag step: only for newly created messages whose stream has
an analytics row; a denylist match sets `is_flagged`, increments
`flag_count` and records a system moderation-log entry
(`performed_by=None`). -/
def handle_new_message (hasAnalytics : Bool) (m : Msg) (log : List LogEntry) :
    Msg × List LogEntry :=
  if hasAnalytics then
    if suspiciousB m.content then
      ({ m with is_flagged := true, flag_count := m.flag_count + 1 },
        ⟨"Message auto-flagged", none⟩ :: log)
    else (m, log)
  else (m, log)

/-- State mutation of `handle_flagged_message`
(`livestream/signals/message_signals.py`): on every save of a message
with `is_flagged` and `flag_count >= 3`, force `is_moderated = True` and
save again. -/
def handle_flagged_message (m : Msg) : Msg :=
  if m.is_flagged && 3 ≤ m.flag_count then { m with is_moderated := true } else m

/-- The re-save trigger condition of `handle_flagged_message`: whenever a
save happens with this condition true, the handler performs another
`instance.save(update_fields=["is_moderated"])`. -/
def flaggedCond (m : Msg) : Bool :=
  m.is_flagged && 3 ≤ m.flag_count

/-- Creation of a chat message (`save_chat_message` /
`StreamMessageViewSet.perform_create`) followed by its post-save signals:
the keyword scan, then the threshold check. -/
def create_message (hasAnalytics : Bool) (c : String) (log : List LogEntry) :
    Msg × List LogEntry :=
  let m0 : Msg := { content := c, is_flagged := false, flag_count := 0,
                    is_moderated := false }
  let out := handle_new_message hasAnalytics m0 log
  (handle_flagged_message out.1, out.2)

/-- `StreamMessage.flag_message` (`livestream/models.py`) followed by the
post-save threshold check: set `is_flagged`, increment `flag_count`,
save. -/
def flag_message (m : Msg) : Msg :=
  handle_flagged_message { m with is_flagged := true, flag_count := m.flag_count + 1 }

/-- `StreamMessageViewSet.flag` (`livestream/api/viewsets.py`): increment
`flag_count`; at three or more flags set `is_flagged` and `is_moderated`;
save (running the post-save threshold check). -/
def flag_endpoint (m : Msg) : Msg :=
  let m1 := { m with flag_count := m.flag_count + 1 }
  let m2 := if 3 ≤ m1.flag_count
            then { m1 with is_flagged := true, is_moderated := true } else m1
  handle_flagged_message m2

/-- `StreamMessageViewSet.moderate`: set `is_moderated = True` and
save. -/
def moderate_endpoint (m : Msg) : Msg :=
  handle_flagged_message { m with is_moderated := true }

/-- A partial update of the writable `is_moderated` field through the
message serializer (`is_flagged`/`flag_count` are read-only), followed by
the post-save threshold check. -/
def set_moderated (b : Bool) (m : Msg) : Msg :=
  handle_flagged_message { m with is_moderated := b }

/-- The moderation-relevant operations that write a persisted chat
message after creation. -/
inductive MsgOp where
  | flagModel
  | flagHttp
  | moderateHttp
  | patchModerated (b : Bool)
deriving Repr, DecidableEq

def msgStep (m : Msg) : MsgOp → Msg
  | MsgOp.flagModel => flag_message m
  | MsgOp.flagHttp => flag_endpoint m
  | MsgOp.moderateHttp => moderate_endpoint m
  | MsgOp.patchModerated b => set_moderated b m

/-- The auto-escalation invariant of the spec: three flags force both
moderation bits. -/
def msgInv (m : Msg) : Prop :=
  3 ≤ m.flag_count → m.is_flagged = true ∧ m.is_moderated = true

/-! ## Presence tracking and viewer counts (`livestream` app) -/

/-- A `StreamParticipant` row for one stream; times are abstract ticks,
`left_at = none` means currently present, `watch_time` a duration in
ticks. -/
structure Participant where
  user : Nat
  joined_at : Nat
  left_at : Option Nat
  watch_time : Nat
deriving Repr, DecidableEq

/-- State of one `LiveStream` row together with its participant rows. -/
structure SState where
  participants : List Participant
  viewer_count : Nat
  peak_viewers : Nat
  live : Bool
deriving Repr, DecidableEq

/-- Number of participant rows with `left_at` null. -/
def openCount (s : SState) : Nat :=
  (s.participants.filter (fun p => p.left_at == none)).length

/-- `LiveStream.update_viewer_count` (`livestream/models.py`): store the
open-row count and raise the peak if exceeded. -/
def update_viewer_count (s : SState) : SState :=
  let active := openCount s
  { s with viewer_count := active,
           peak_viewers := if active > s.peak_viewers then active else s.peak_viewers }

/-- `LiveStreamConsumer.send_viewer_count` (`livestream/consumers.py`):
store the open-row count and `peak_viewers = max(peak_viewers, count)`. -/
def send_viewer_count (s : SState) : SState :=
  let c := openCount s
  { s with viewer_count := c, peak_viewers := max s.peak_viewers c }

/-- Row predicate for the open row of one user
(`left_at__isnull=True`). -/
def openFor (u : Nat) (p : Participant) : Bool :=
  p.user == u && p.left_at == none

/-- Row update of `LiveStreamViewSet.leave`: close the row and
`watch_time += now - joined_at`. -/
def leaveRow (p : Participant) (now : Nat) : Participant :=
  { p with left_at := some now, watch_time := p.watch_time + (now - p.joined_at) }

/-- Row update of `LiveStreamConsumer.remove_participant`: close the row
and `watch_time = now - joined_at` (overwrite, not accumulate). -/
def disconnectRow (p : Participant) (now : Nat) : Participant :=
  { p with left_at := some now, watch_time := now - p.joined_at }

/-- `LiveStreamViewSet.join` before the viewer-count refresh:
`get_or_create`; a closed row is reopened with `joined_at` reset to
now. -/
def joinCore (s : SState) (u now : Nat) : SState :=
  match s.participants.find? (fun p => p.user == u) with
  | none => { s with participants := ⟨u, now, none, 0⟩ :: s.participants }
  | some p =>
      if p.left_at == none then s
      else
        let ps := modFirst (fun q => q.user == u)
          (fun q => { q with left_at := none, joined_at := now }) s.participants
        { s with participants := ps }

/-- `LiveStreamViewSet.join` (`livestream/api/viewsets.py`), presence
part: join then `stream.update_viewer_count()`. -/
def http_join (s : SState) (u now : Nat) : SState :=
  update_viewer_count (joinCore s u now)

/-- `LiveStreamViewSet.leave` (`livestream/api/viewsets.py`): without an
open row the view returns a 400 before reaching
`stream.update_viewer_count()`, so nothing is written; with an open row
it closes that row, accumulating watch time, and then refreshes the
viewer count. -/
def http_leave (s : SState) (u now : Nat) : SState :=
  match s.participants.find? (openFor u) with
  | none => s
  | some _ =>
      let ps := modFirst (openFor u) (fun q => leaveRow q now) s.participants
      update_viewer_count { s with participants := ps }

/-- `LiveStreamConsumer.add_participant`: `get_or_create`; a closed row
is reopened by clearing `left_at` only (`joined_at` is not reset). -/
def connectCore (s : SState) (u now : Nat) : SState :=
  match s.participants.find? (fun p => p.user == u) with
  | none => { s with participants := ⟨u, now, none, 0⟩ :: s.participants }
  | some p =>
      if p.left_at == none then s
      else
        let ps := modFirst (fun q => q.user == u)
          (fun q => { q with left_at := none }) s.participants
        { s with participants := ps }

/-- WebSocket `connect`: add the participant, then `send_viewer_count`. -/
def ws_connect (s : SState) (u now : Nat) : SState :=
  send_viewer_count (connectCore s u now)

/-- `LiveStreamConsumer.remove_participant`: close the caller's open row,
overwriting watch time; absent row is a silent no-op. -/
def disconnectCore (s : SState) (u now : Nat) : SState :=
  match s.participants.find? (openFor u) with
  | none => s
  | some _ =>
      { s with participants :=
          modFirst (openFor u) (fun q => disconnectRow q now) s.participants }

/-- WebSocket `disconnect`: remove the participant, then
`send_viewer_count`. -/
def ws_disconnect (s : SState) (u now : Nat) : SState :=
  send_viewer_count (disconnectCore s u now)

/-- `LiveStreamViewSet.end_stream` (`livestream/api/viewsets.py`): only
for a live stream; marks it ended and bulk-updates every open participant
row to `left_at=now`.  The bulk `update()` fires no signals and the view
never refreshes `viewer_count` or `peak_viewers`. -/
def end_stream (s : SState) (now : Nat) : SState :=
  if s.live then
    { s with live := false,
             participants := s.participants.map
               (fun p => if p.left_at == none then { p with left_at := some now } else p) }
  else s

/-- Watch time currently stored for a user (0 when the user has no
row). -/
def wtOf (s : SState) (u : Nat) : Nat :=
  match s.participants.find? (fun p => p.user == u) with
  | some p => p.watch_time
  | none => 0

/-! ## Stream bans (`livestream` app) -/

/-- A `StreamBan` row; `expires_at = none` is a ban with no expiry. -/
structure StreamBanRec where
  stream : Nat
  user : Nat
  expires_at : Option Nat
deriving Repr, DecidableEq

/-- `StreamBan.is_active` (`livestream/models.py`): an expiry in the
future, or no expiry at all, means the ban is active. -/
def is_active (b : StreamBanRec) (now : Nat) : Bool :=
  match b.expires_at with
  | some t => now < t
  | none => true

/-- The ban filter of `LiveStreamViewSet.join` and of
`LiveStreamConsumer.is_user_banned`:
`StreamBan.objects.filter(stream=..., user=..., expires_at__gt=now)` —
rows with `expires_at` null never match `expires_at__gt`. -/
def ban_check_future (bans : List StreamBanRec) (s u now : Nat) : Bool :=
  bans.any (fun b => b.stream == s && b.user == u &&
    match b.expires_at with
    | some t => now < t
    | none => false)

/-- The ban filter of `StreamMessageViewSet.perform_create`
(`livestream/api/viewsets.py`):
`StreamBan.objects.filter(stream=stream, user=user).exists()` — any ban
row at all, expired or not. -/
def ban_check_any (bans : List StreamBanRec) (s u : Nat) : Bool :=
  bans.any (fun b => b.stream == s && b.user == u)

/-! ## Notifications (`notifications` app) -/

/-- A persisted `Notification` row (the fields `create_notification`
writes that the claims mention). -/
structure Notif where
  recipient : Nat
  sender : Option Nat
  ntype : String
  title : String
  message : String
deriving Repr, DecidableEq

/-- `create_notification` (`notifications/utils.py`): skip when the
recipient is absent or the sender equals the recipient
(`if not recipient or (sender and sender == recipient): return None`);
otherwise persist exactly one `Notification` row and return it. -/
def create_notification (store : List Notif) (recipient sender : Option Nat)
    (ntype title message : String) : Option Notif × List Notif :=
  match recipient with
  | none => (none, store)
  | some r =>
      if (match sender with | some s => s == r | none => false) then
        (none, store)
      else
        let n : Notif := ⟨r, sender, ntype, title, message⟩
        (some n, n :: store)

/-! ## List lemmas for the row operations -/

theorem filter_delFirst (p : α → Bool) :
    ∀ l : List α, List.filter p (delFirst p l) = (List.filter p l).tail
  | [] => rfl
  | a :: l => by
    by_cases h : p a = true
    · simp [delFirst, List.filter_cons, h]
    · simp [delFirst, List.filter_cons, h, filter_delFirst p l]

theorem filter_modFirst (p : α → Bool) (f : α → α) (hf : ∀ a, p (f a) = p a) :
    ∀ (l : List α) (a : α) (t : List α), List.filter p l = a :: t →
      List.filter p (modFirst p f l) = f a :: t
  | [], a, t, he => by simp at he
  | b :: l, a, t, he => by
    by_cases h : p b = true
    · simp only [List.filter_cons, h, if_pos] at he
      injection he with h1 h2
      subst h1
      subst h2
      simp [modFirst, h, List.filter_cons, hf]
    · simp only [List.filter_cons] at he
      rw [if_neg h] at he
      simp only [modFirst]
      rw [if_neg h]
      simp only [List.filter_cons]
      rw [if_neg h]
      exact filter_modFirst p f hf l a t he

theorem mem_of_mem_delFirst (p : α → Bool) :
    ∀ (l : List α) (b : α), b ∈ delFirst p l → b ∈ l
  | [], b, hb => by simp [delFirst] at hb
  | a :: l, b, hb => by
    by_cases h : p a = true
    · simp only [delFirst] at hb
      rw [if_pos h] at hb
      exact List.mem_cons_of_mem a hb
    · simp only [delFirst] at hb
      rw [if_neg h] at hb
      cases hb with
      | head => exact List.mem_cons_self a l
      | tail _ hb => exact List.mem_cons_of_mem a (mem_of_mem_delFirst p l b hb)

theorem all_delFirst (p q : α → Bool) (l : List α) (h : l.all q = true) :
    (delFirst p l).all q = true := by
  rw [List.all_eq_true] at h ⊢
  exact fun b hb => h b (mem_of_mem_delFirst p l b hb)

theorem all_modFirst (p q : α → Bool) (f : α → α) (hf : ∀ a, q (f a) = q a) :
    ∀ l : List α, l.all q = true → (modFirst p f l).all q = true
  | [], h => h
  | a :: l, h => by
    simp only [List.all_cons, Bool.and_eq_true] at h
    by_cases hp : p a = true
    · simp [modFirst, hp, List.all_cons, hf, h.1, h.2]
    · simp [modFirst, hp, List.all_cons, h.1, all_modFirst p q f hf l h.2]

/-! ## Reaction toggle lemmas -/

theorem keyM_self (u ct oid : Nat) (k : String) :
    keyM u ct oid ⟨u, ct, oid, k⟩ = true := by
  simp [keyM]

theorem keyM_setKind (u ct oid : Nat) (k : String) (r : Reaction) :
    keyM u ct oid { r with kind := k } = keyM u ct oid r := rfl

theorem uniqKeys_delFirst (p : Reaction → Bool) :
    ∀ l : List Reaction, uniqKeys l = true → uniqKeys (delFirst p l) = true
  | [], h => h
  | r :: l, h => by
    simp only [uniqKeys, Bool.and_eq_true] at h
    by_cases hp : p r = true
    · simp only [delFirst, hp, if_pos]
      exact h.2
    · simp only [delFirst, hp, Bool.false_eq_true, if_neg, uniqKeys, Bool.and_eq_true]
      exact ⟨all_delFirst p _ l h.1, uniqKeys_delFirst p l h.2⟩

theorem sameKey_setKind_left (k : String) (r s : Reaction) :
    sameKey { r with kind := k } s = sameKey r s := rfl

theorem sameKey_setKind_right (k : String) (r s : Reaction) :
    sameKey r { s with kind := k } = sameKey r s := rfl

theorem uniqKeys_modFirst (p : Reaction → Bool) (k : String) :
    ∀ l : List Reaction, uniqKeys l = true →
      uniqKeys (modFirst p (fun r => { r with kind := k }) l) = true
  | [], h => h
  | r :: l, h => by
    simp only [uniqKeys, Bool.and_eq_true] at h
    by_cases hp : p r = true
    · simp only [modFirst, hp, if_pos, uniqKeys, Bool.and_eq_true]
      constructor
      · have : (fun s => !(sameKey { r with kind := k } s)) =
            (fun s => !(sameKey r s)) := rfl
        rw [this]
        exact h.1
      · exact h.2
    · simp only [modFirst, hp, Bool.false_eq_true, if_neg, uniqKeys, Bool.and_eq_true]
      refine ⟨?_, uniqKeys_modFirst p k l h.2⟩
      exact all_modFirst p _ _ (fun a => by rw [sameKey_setKind_right]) l h.1

theorem natBeqComm (a b : Nat) : (a == b) = (b == a) := by
  by_cases h : a = b
  · subst h
    rfl
  · have h1 : (a == b) = false := by simpa using h
    have h2 : (b == a) = false := by simpa using (Ne.symm h)
    rw [h1, h2]

theorem sameKey_mk (u ct oid : Nat) (k : String) (s : Reaction) :
    sameKey ⟨u, ct, oid, k⟩ s = keyM u ct oid s := by
  simp only [sameKey, keyM]
  rw [natBeqComm u s.user, natBeqComm ct s.ctype, natBeqComm oid s.objId]

/-- C1: for every user, target and reaction kind, the toggle operation
(the store mutation shared by `ReactionViewSet.toggle` and
`ReactionConsumer.handle_toggle`) satisfies the three-way contract:
no row for (user, target) → a row with the given kind is created and
`created` is reported; a row with the same kind → that row is deleted and
`removed` is reported; a row with a different kind → the kind is
overwritten on that same row and `updated` is reported. -/
theorem C1_toggle_three_way_contract (store : List Reaction) (u ct oid : Nat) (k : String) :
    (recsFor store u ct oid = [] →
      toggleStore store u ct oid k =
        (ToggleAction.created, ⟨u, ct, oid, k⟩ :: store) ∧
      recsFor (toggleStore store u ct oid k).2 u ct oid = [⟨u, ct, oid, k⟩]) ∧
    (∀ ex : Reaction, recsFor store u ct oid = [ex] → ex.kind = k →
      (toggleStore store u ct oid k).1 = ToggleAction.removed ∧
      recsFor (toggleStore store u ct oid k).2 u ct oid = []) ∧
    (∀ ex : Reaction, recsFor store u ct oid = [ex] → ex.kind ≠ k →
      (toggleStore store u ct oid k).1 = ToggleAction.updated ∧
      recsFor (toggleStore store u ct oid k).2 u ct oid = [{ ex with kind := k }]) := by
  refine ⟨?_, ?_, ?_⟩
  · intro h
    rw [recsFor] at h
    have hh : (store.filter (keyM u ct oid)).head? = none := by
      rw [h]
      rfl
    have ht : toggleStore store u ct oid k =
        (ToggleAction.created, ⟨u, ct, oid, k⟩ :: store) := by
      unfold toggleStore
      rw [hh]
    refine ⟨ht, ?_⟩
    rw [ht]
    simp only [recsFor, List.filter_cons, keyM_self, if_pos, h]
  · intro ex h hk
    rw [recsFor] at h
    have hh : (store.filter (keyM u ct oid)).head? = some ex := by
      rw [h]
      rfl
    have ht : toggleStore store u ct oid k =
        (ToggleAction.removed, delFirst (keyM u ct oid) store) := by
      unfold toggleStore
      rw [hh]
      simp [hk]
    rw [ht]
    refine ⟨rfl, ?_⟩
    rw [recsFor, filter_delFirst, h]
    rfl
  · intro ex h hk
    rw [recsFor] at h
    have hh : (store.filter (keyM u ct oid)).head? = some ex := by
      rw [h]
      rfl
    have ht : toggleStore store u ct oid k =
        (ToggleAction.updated,
          modFirst (keyM u ct oid) (fun r => { r with kind := k }) store) := by
      unfold toggleStore
      rw [hh]
      simp [hk]
    rw [ht]
    exact ⟨rfl,
      filter_modFirst (keyM u ct oid) _ (fun r => keyM_setKind u ct oid k r) store ex [] h⟩

theorem C1_toggle_three_way_contract_witness :
    recsFor [] 1 0 7 = [] ∧
    toggleStore [] 1 0 7 "like" = (ToggleAction.created, [⟨1, 0, 7, "like"⟩]) ∧
    recsFor (toggleStore [] 1 0 7 "like").2 1 0 7 = [⟨1, 0, 7, "like"⟩] := by
  have h := (C1_toggle_three_way_contract [] 1 0 7 "like").1 (by decide)
  exact ⟨by decide, h.1, h.2⟩

/-- C2 (amended): the post/comment `Reaction` store keeps at most one row
per (user, target) — the `unique_together` constraint is preserved by
every toggle — and toggling the same kind twice from "no record" restores
the store exactly.  Live-stream reactions are keyed by (stream, user,
kind) instead: `save_reaction` with an already-present kind is a no-op
(no toggle-off), so distinct kinds by the same user accumulate. -/
theorem C2_at_most_one_and_round_trip (store : List Reaction) (u ct oid : Nat)
    (k : String) (sstore : List StreamReaction) (sid uid : Nat) :
    (uniqKeys store = true → uniqKeys (toggleStore store u ct oid k).2 = true) ∧
    (recsFor store u ct oid = [] →
      (toggleStore (toggleStore store u ct oid k).2 u ct oid k).2 = store) ∧
    (save_reaction (save_reaction sstore sid uid k) sid uid k =
      save_reaction sstore sid uid k) := by
  refine ⟨?_, ?_, ?_⟩
  · intro hu
    rcases hh : (store.filter (keyM u ct oid)).head? with _ | ex
    · have ht : (toggleStore store u ct oid k).2 = ⟨u, ct, oid, k⟩ :: store := by
        unfold toggleStore
        rw [hh]
      rw [ht]
      simp only [uniqKeys, Bool.and_eq_true]
      refine ⟨?_, hu⟩
      have hnil : store.filter (keyM u ct oid) = [] := by
        cases he : store.filter (keyM u ct oid) with
        | nil => rfl
        | cons a t =>
            rw [he] at hh
            exact absurd hh (by simp)
      rw [List.all_eq_true]
      intro s hs
      have hmem : ¬ (keyM u ct oid s = true) := by
        intro hgood
        have : s ∈ store.filter (keyM u ct oid) := List.mem_filter.mpr ⟨hs, hgood⟩
        rw [hnil] at this
        exact absurd this (List.not_mem_nil s)
      have hf : keyM u ct oid s = false := by simpa using hmem
      rw [sameKey_mk, hf]
      rfl
    · by_cases hk : (ex.kind == k) = true
      · have ht : (toggleStore store u ct oid k).2 = delFirst (keyM u ct oid) store := by
          unfold toggleStore
          rw [hh]
          simp [hk]
        rw [ht]
        exact uniqKeys_delFirst _ store hu
      · have ht : (toggleStore store u ct oid k).2 =
            modFirst (keyM u ct oid) (fun r => { r with kind := k }) store := by
          unfold toggleStore
          rw [hh]
          simp [hk]
        rw [ht]
        exact uniqKeys_modFirst _ k store hu
  · intro h
    rw [recsFor] at h
    have hh : (store.filter (keyM u ct oid)).head? = none := by
      rw [h]
      rfl
    have ht1 : (toggleStore store u ct oid k).2 = ⟨u, ct, oid, k⟩ :: store := by
      unfold toggleStore
      rw [hh]
    rw [ht1]
    have hf2 : (⟨u, ct, oid, k⟩ :: store).filter (keyM u ct oid) =
        [(⟨u, ct, oid, k⟩ : Reaction)] := by
      simp only [List.filter_cons, keyM_self, if_pos, h]
    have hh2 : ((⟨u, ct, oid, k⟩ :: store).filter (keyM u ct oid)).head? =
        some ⟨u, ct, oid, k⟩ := by
      rw [hf2]
      rfl
    unfold toggleStore
    rw [hh2]
    simp [delFirst, keyM_self]
  · by_cases hmem :
      (sstore.any fun r => r.stream == sid && r.user == uid && r.kind == k) = true
    · have h1 : save_reaction sstore sid uid k = sstore := by
        unfold save_reaction
        rw [if_pos hmem]
      rw [h1, h1]
    · have h1 : save_reaction sstore sid uid k = ⟨sid, uid, k⟩ :: sstore := by
        unfold save_reaction
        rw [if_neg hmem]
      rw [h1]
      have h2 : ((⟨sid, uid, k⟩ :: sstore).any
          fun r => r.stream == sid && r.user == uid && r.kind == k) = true := by
        simp
      unfold save_reaction
      rw [if_pos h2]

theorem C2_at_most_one_and_round_trip_witness :
    uniqKeys [] = true ∧
    uniqKeys (toggleStore [] 1 0 7 "like").2 = true ∧
    recsFor [] 1 0 7 = [] ∧
    (toggleStore (toggleStore [] 1 0 7 "like").2 1 0 7 "like").2 = [] ∧
    save_reaction (save_reaction [] 1 1 "like") 1 1 "like" =
      save_reaction [] 1 1 "like" := by
  have h := C2_at_most_one_and_round_trip [] 1 0 7 "like" [] 1 1
  exact ⟨by decide, h.1 (by decide), by decide, h.2.1 (by decide), h.2.2⟩

/-- C2 counterexample: on the live-stream path the claim is false.  Two
`save_reaction` calls by the same user on the same stream with different
kinds leave two reaction rows for that (user, target), and repeating the
same kind twice leaves the record in place instead of returning to "no
record". -/
theorem C2_counterexample :
    (streamRecsFor (save_reaction (save_reaction [] 1 1 "like") 1 1 "love") 1 1).length
      = 2 ∧
    streamRecsFor (save_reaction (save_reaction [] 1 1 "like") 1 1 "like") 1 1 ≠ [] := by
  decide

/-! ## Moderation-pipeline lemmas -/

theorem handle_flagged_fields (m : Msg) :
    (handle_flagged_message m).is_flagged = m.is_flagged ∧
    (handle_flagged_message m).flag_count = m.flag_count ∧
    (handle_flagged_message m).content = m.content := by
  unfold handle_flagged_message
  by_cases h : (m.is_flagged && decide (3 ≤ m.flag_count)) = true
  · rw [if_pos h]
    exact ⟨rfl, rfl, rfl⟩
  · rw [if_neg h]
    exact ⟨rfl, rfl, rfl⟩

theorem handle_flagged_moderated (m : Msg) (h1 : m.is_flagged = true)
    (h2 : 3 ≤ m.flag_count) : (handle_flagged_message m).is_moderated = true := by
  unfold handle_flagged_message
  rw [if_pos (by simp [h1, h2])]

theorem handle_flagged_moderated_keep (m : Msg) (h : m.is_moderated = true) :
    (handle_flagged_message m).is_moderated = true := by
  unfold handle_flagged_message
  by_cases hc : (m.is_flagged && decide (3 ≤ m.flag_count)) = true
  · rw [if_pos hc]
  · rw [if_neg hc]
    exact h

/-- C3: for every chat message, `flag_count >= 3` forces both
`is_flagged` and `is_moderated` in every reachable state — a freshly
created message satisfies the implication, and every write operation
(model-level `flag_message`, the manual `flag` endpoint, the `moderate`
endpoint, and a serializer update of `is_moderated`) preserves it, each
followed by the shared post-save threshold check; in particular once the
implication holds no operation makes it false. -/
theorem C3_threshold_escalation_invariant :
    (∀ (hA : Bool) (c : String) (log : List LogEntry),
      msgInv (create_message hA c log).1) ∧
    (∀ (m : Msg) (op : MsgOp), msgInv m → msgInv (msgStep m op)) := by
  constructor
  · intro hA c log h3
    exfalso
    have hle : (handle_new_message hA
        { content := c, is_flagged := false, flag_count := 0, is_moderated := false }
        log).1.flag_count ≤ 1 := by
      unfold handle_new_message
      by_cases h1 : hA = true
      · rw [if_pos h1]
        by_cases h2 : suspiciousB c = true
        · rw [if_pos h2]
        · rw [if_neg h2]
          exact Nat.zero_le 1
      · rw [if_neg h1]
        exact Nat.zero_le 1
    have h3' : 3 ≤ (handle_flagged_message (handle_new_message hA
        { content := c, is_flagged := false, flag_count := 0, is_moderated := false }
        log).1).flag_count := h3
    rw [(handle_flagged_fields _).2.1] at h3'
    omega
  · intro m op hm
    cases op with
    | flagModel =>
        show msgInv (handle_flagged_message
          { m with is_flagged := true, flag_count := m.flag_count + 1 })
        intro h3
        rw [(handle_flagged_fields _).2.1] at h3
        refine ⟨(handle_flagged_fields _).1, ?_⟩
        exact handle_flagged_moderated _ rfl h3
    | flagHttp =>
        show msgInv (flag_endpoint m)
        simp only [flag_endpoint]
        by_cases h : 3 ≤ m.flag_count + 1
        · rw [if_pos h]
          intro h3
          refine ⟨(handle_flagged_fields _).1, ?_⟩
          exact handle_flagged_moderated_keep _ rfl
        · rw [if_neg h]
          intro h3
          exfalso
          rw [(handle_flagged_fields _).2.1] at h3
          exact h h3
    | moderateHttp =>
        show msgInv (handle_flagged_message { m with is_moderated := true })
        intro h3
        rw [(handle_flagged_fields _).2.1] at h3
        refine ⟨?_, handle_flagged_moderated_keep _ rfl⟩
        rw [(handle_flagged_fields _).1]
        exact (hm h3).1
    | patchModerated b =>
        show msgInv (handle_flagged_message { m with is_moderated := b })
        intro h3
        rw [(handle_flagged_fields _).2.1] at h3
        refine ⟨?_, handle_flagged_moderated _ (hm h3).1 h3⟩
        rw [(handle_flagged_fields _).1]
        exact (hm h3).1

theorem C3_threshold_escalation_invariant_witness :
    msgInv ⟨"x", true, 3, true⟩ ∧
    msgInv (msgStep ⟨"x", true, 3, true⟩ (MsgOp.patchModerated false)) := by
  have h := C3_threshold_escalation_invariant.2 ⟨"x", true, 3, true⟩
    (MsgOp.patchModerated false) (fun _ => ⟨rfl, rfl⟩)
  exact ⟨fun _ => ⟨rfl, rfl⟩, h⟩

/-- C7: streams created through the application get an analytics row
(`handle_livestream_creation`), and every newly created chat message on
such a stream whose content matches the case-insensitive denylist ends
flagged, with its flag count incremented to 1 and a moderation-log entry
whose actor is the system (`performed_by = None`), not a user. -/
theorem C7_keyword_autoflag (s : StreamRec) (c : String) (log : List LogEntry)
    (hA : s.hasAnalytics = true) (hs : suspiciousB c = true) :
    createStream.hasAnalytics = true ∧
    (create_message s.hasAnalytics c log).1.is_flagged = true ∧
    (create_message s.hasAnalytics c log).1.flag_count = 1 ∧
    (create_message s.hasAnalytics c log).2 =
      ⟨"Message auto-flagged", none⟩ :: log ∧
    (⟨"Message auto-flagged", none⟩ : LogEntry).performedBy = none := by
  rw [hA]
  have hnew : handle_new_message true
      { content := c, is_flagged := false, flag_count := 0, is_moderated := false }
      log =
      ({ content := c, is_flagged := true, flag_count := 1, is_moderated := false },
        ⟨"Message auto-flagged", none⟩ :: log) := by
    unfold handle_new_message
    rw [if_pos rfl, if_pos hs]
  have h1 : (create_message true c log).1 = handle_flagged_message
      { content := c, is_flagged := true, flag_count := 1, is_moderated := false } := by
    show handle_flagged_message (handle_new_message true
      { content := c, is_flagged := false, flag_count := 0, is_moderated := false }
      log).1 = _
    rw [hnew]
  have h2 : (create_message true c log).2 =
      ⟨"Message auto-flagged", none⟩ :: log := by
    show (handle_new_message true
      { content := c, is_flagged := false, flag_count := 0, is_moderated := false }
      log).2 = _
    rw [hnew]
  have hstay : handle_flagged_message
      { content := c, is_flagged := true, flag_count := 1, is_moderated := false } =
      { content := c, is_flagged := true, flag_count := 1, is_moderated := false } := by
    unfold handle_flagged_message
    rw [if_neg (by simp)]
  rw [h1, h2, hstay]
  exact ⟨rfl, rfl, rfl, rfl, rfl⟩

theorem C7_keyword_autoflag_witness :
    createStream.hasAnalytics = true ∧
    suspiciousB "Click HERE to win" = true ∧
    (create_message createStream.hasAnalytics "Click HERE to win" []).1.is_flagged
      = true ∧
    (create_message createStream.hasAnalytics "Click HERE to win" []).1.flag_count
      = 1 ∧
    (create_message createStream.hasAnalytics "Click HERE to win" []).2 =
      [⟨"Message auto-flagged", none⟩] := by
  have h := C7_keyword_autoflag createStream "Click HERE to win" [] (by decide)
    (by decide)
  exact ⟨h.1, by decide, h.2.1, h.2.2.1, h.2.2.2.1⟩

theorem flaggedCond_step (q : Msg) :
    flaggedCond (handle_flagged_message q) = flaggedCond q := by
  unfold handle_flagged_message
  by_cases hc : (q.is_flagged && decide (3 ≤ q.flag_count)) = true
  · rw [if_pos hc]
    rfl
  · rw [if_neg hc]

theorem flaggedCond_iterate (m : Msg) (h : flaggedCond m = true) :
    ∀ n : Nat, flaggedCond (handle_flagged_message^[n] m) = true := by
  intro n
  induction n with
  | zero => simpa using h
  | succ n ih =>
      rw [Function.iterate_succ_apply', flaggedCond_step]
      exact ih

/-- C10: refuted on the code.  Saving a message that is flagged with at
least three flags triggers `handle_flagged_message`, which saves the
message again; the re-save condition (`is_flagged` and `flag_count >= 3`)
still holds after every number of handler invocations — here evaluated on
the failing input — so the chain of post-save handler invocations never
ends, contradicting the claimed finite termination. -/
theorem C10_flagged_save_diverges :
    ∀ n : Nat,
      flaggedCond (handle_flagged_message^[n]
        { content := "hi", is_flagged := true, flag_count := 3,
          is_moderated := false }) = true := by
  intro n
  exact flaggedCond_iterate _ (by decide) n

/-! ## Presence lemmas -/

theorem update_viewer_count_eq (s : SState) :
    (update_viewer_count s).viewer_count = openCount (update_viewer_count s) := rfl

theorem send_viewer_count_eq (s : SState) :
    (send_viewer_count s).viewer_count = openCount (send_viewer_count s) := rfl

theorem update_viewer_count_peak (s : SState) :
    s.peak_viewers ≤ (update_viewer_count s).peak_viewers := by
  simp only [update_viewer_count]
  by_cases h : openCount s > s.peak_viewers
  · rw [if_pos h]
    exact Nat.le_of_lt h
  · rw [if_neg h]

theorem send_viewer_count_peak (s : SState) :
    s.peak_viewers ≤ (send_viewer_count s).peak_viewers := by
  simp only [send_viewer_count]
  exact Nat.le_max_left _ _

theorem joinCore_peak (s : SState) (u now : Nat) :
    (joinCore s u now).peak_viewers = s.peak_viewers := by
  unfold joinCore
  cases h : s.participants.find? (fun p => p.user == u) with
  | none => rfl
  | some p =>
      dsimp only
      by_cases hl : (p.left_at == none) = true
      · rw [if_pos hl]
      · rw [if_neg hl]

theorem http_leave_peak (s : SState) (u now : Nat) :
    s.peak_viewers ≤ (http_leave s u now).peak_viewers := by
  unfold http_leave
  cases h : s.participants.find? (openFor u) with
  | none => exact Nat.le_refl _
  | some p =>
      dsimp only
      exact update_viewer_count_peak
        { s with participants :=
            modFirst (openFor u) (fun q => leaveRow q now) s.participants }

theorem connectCore_peak (s : SState) (u now : Nat) :
    (connectCore s u now).peak_viewers = s.peak_viewers := by
  unfold connectCore
  cases h : s.participants.find? (fun p => p.user == u) with
  | none => rfl
  | some p =>
      dsimp only
      by_cases hl : (p.left_at == none) = true
      · rw [if_pos hl]
      · rw [if_neg hl]

theorem disconnectCore_peak (s : SState) (u now : Nat) :
    (disconnectCore s u now).peak_viewers = s.peak_viewers := by
  unfold disconnectCore
  cases h : s.participants.find? (openFor u) with
  | none => rfl
  | some p => rfl

theorem end_stream_peak (s : SState) (now : Nat) :
    (end_stream s now).peak_viewers = s.peak_viewers := by
  unfold end_stream
  by_cases h : s.live = true
  · rw [if_pos h]
  · rw [if_neg h]

/-- C5 (amended): after the HTTP join, the WebSocket connect and the
WebSocket disconnect operations, and after an HTTP leave whose caller has
an open row, the stored `viewer_count` equals the number of participant
rows with `left_at` null, because each of these writes ends in
`update_viewer_count`/`send_viewer_count`; an HTTP leave without an open
row is rejected with a 400 before any write, changing nothing.
`peak_viewers` never decreases under any of these operations,
`end_stream` included.  `end_stream` itself closes all open rows with a
bulk update and refreshes neither counter, so the equality does not hold
after it (see the counterexample). -/
theorem C5_viewer_count_amended :
    (∀ (s : SState) (u now : Nat),
      (http_join s u now).viewer_count = openCount (http_join s u now) ∧
      (ws_connect s u now).viewer_count = openCount (ws_connect s u now) ∧
      (ws_disconnect s u now).viewer_count = openCount (ws_disconnect s u now)) ∧
    (∀ (s : SState) (u now : Nat),
      (s.participants.find? (openFor u) = none → http_leave s u now = s) ∧
      (∀ p : Participant, s.participants.find? (openFor u) = some p →
        (http_leave s u now).viewer_count = openCount (http_leave s u now))) ∧
    (∀ (s : SState) (u now : Nat),
      s.peak_viewers ≤ (http_join s u now).peak_viewers ∧
      s.peak_viewers ≤ (http_leave s u now).peak_viewers ∧
      s.peak_viewers ≤ (ws_connect s u now).peak_viewers ∧
      s.peak_viewers ≤ (ws_disconnect s u now).peak_viewers ∧
      s.peak_viewers ≤ (end_stream s now).peak_viewers) := by
  refine ⟨?_, ?_, ?_⟩
  · intro s u now
    exact ⟨update_viewer_count_eq _, send_viewer_count_eq _,
      send_viewer_count_eq _⟩
  · intro s u now
    constructor
    · intro h
      unfold http_leave
      rw [h]
    · intro p h
      unfold http_leave
      rw [h]
      exact update_viewer_count_eq _
  · intro s u now
    refine ⟨?_, http_leave_peak s u now, ?_, ?_, ?_⟩
    · have h := update_viewer_count_peak (joinCore s u now)
      rw [joinCore_peak] at h
      exact h
    · have h := send_viewer_count_peak (connectCore s u now)
      rw [connectCore_peak] at h
      exact h
    · have h := send_viewer_count_peak (disconnectCore s u now)
      rw [disconnectCore_peak] at h
      exact h
    · rw [end_stream_peak]

theorem C5_viewer_count_amended_witness :
    (⟨[], 1, 1, false⟩ : SState).participants.find? (openFor 1) = none ∧
    http_leave ⟨[], 1, 1, false⟩ 1 10 = ⟨[], 1, 1, false⟩ ∧
    (⟨[⟨1, 0, none, 0⟩], 1, 1, true⟩ : SState).participants.find? (openFor 1) =
      some ⟨1, 0, none, 0⟩ ∧
    (http_leave ⟨[⟨1, 0, none, 0⟩], 1, 1, true⟩ 1 10).viewer_count =
      openCount (http_leave ⟨[⟨1, 0, none, 0⟩], 1, 1, true⟩ 1 10) := by
  have h := C5_viewer_count_amended.2.1 ⟨[⟨1, 0, none, 0⟩], 1, 1, true⟩ 1 10
  have h0 := C5_viewer_count_amended.2.1 (⟨[], 1, 1, false⟩ : SState) 1 10
  exact ⟨by decide, h0.1 (by decide), by decide, h.2 ⟨1, 0, none, 0⟩ (by decide)⟩

/-- C5 counterexample: `end_stream` changes presence (it closes the only
open participant row) but leaves the stored `viewer_count` at its old
value 1 while the open-row count is 0. -/
theorem C5_counterexample :
    (end_stream ⟨[⟨1, 0, none, 0⟩], 1, 1, true⟩ 10).viewer_count ≠
      openCount (end_stream ⟨[⟨1, 0, none, 0⟩], 1, 1, true⟩ 10) := by
  decide

/-- C8 (amended): the HTTP leave path closes the row and accumulates,
`watch_time := watch_time + (now - joined_at)`, so its stored watch time
never decreases; the WebSocket disconnect path instead overwrites,
`watch_time := now - joined_at`, which can shrink the stored value across
mixed join/leave cycles (see the counterexample). -/
theorem C8_watch_time_amended (p : Participant) (now : Nat) :
    (leaveRow p now).watch_time = p.watch_time + (now - p.joined_at) ∧
    p.watch_time ≤ (leaveRow p now).watch_time ∧
    (leaveRow p now).left_at = some now ∧
    (disconnectRow p now).watch_time = now - p.joined_at ∧
    (disconnectRow p now).left_at = some now :=
  ⟨rfl, Nat.le_add_right _ _, rfl, rfl, rfl⟩

/-- C8 counterexample: join at 0, HTTP-leave at 10 (watch time 10),
rejoin at 100 (HTTP join resets `joined_at`), WebSocket-disconnect at 103
— the stored watch time drops from 10 to 3, because the WebSocket path
overwrites instead of adding. -/
theorem C8_counterexample :
    wtOf (http_leave (http_join ⟨[], 0, 0, true⟩ 1 0) 1 10) 1 = 10 ∧
    wtOf (ws_disconnect
      (http_join (http_leave (http_join ⟨[], 0, 0, true⟩ 1 0) 1 10) 1 100)
      1 103) 1 = 3 ∧
    wtOf (ws_disconnect
      (http_join (http_leave (http_join ⟨[], 0, 0, true⟩ 1 0) 1 10) 1 100)
      1 103) 1 <
      wtOf (http_leave (http_join ⟨[], 0, 0, true⟩ 1 0) 1 10) 1 := by
  decide

/-! ## Ban checks -/

/-- C4: the code contradicts its own `StreamBan.is_active`.  For an
expired ban, `is_active` is false yet the HTTP message path still rejects
(it checks bare row existence); for a never-expiring ban
(`expires_at = None`), `is_active` is true yet the join/WebSocket check
(`expires_at__gt=now`) does not see it, so the user is admitted. -/
theorem C4_ban_checks_contradict_is_active :
    (is_active ⟨1, 2, some 5⟩ 10 = false ∧
      ban_check_any [⟨1, 2, some 5⟩] 1 2 = true) ∧
    (is_active ⟨1, 2, none⟩ 10 = true ∧
      ban_check_future [⟨1, 2, none⟩] 1 2 10 = false) := by
  decide

/-! ## Notification creation -/

/-- C9: `create_notification` is a no-op exactly when the recipient is
absent or the sender equals the recipient, and in every other case it
persists exactly one new `Notification` row and returns it. -/
theorem C9_notification_guard (store : List Notif) (r s : Option Nat)
    (t ti msg : String) :
    (r = none → create_notification store r s t ti msg = (none, store)) ∧
    (∀ x : Nat, r = some x → s = some x →
      create_notification store r s t ti msg = (none, store)) ∧
    (∀ x : Nat, r = some x → s ≠ some x →
      create_notification store r s t ti msg =
        (some ⟨x, s, t, ti, msg⟩, (⟨x, s, t, ti, msg⟩ : Notif) :: store)) := by
  refine ⟨?_, ?_, ?_⟩
  · intro h
    subst h
    rfl
  · intro x hr hs
    subst hr
    subst hs
    simp only [create_notification]
    rw [if_pos (by simp)]
  · intro x hr hs
    subst hr
    cases s with
    | none => rfl
    | some y =>
        have hy : y ≠ x := by
          intro he
          exact hs (by rw [he])
        simp only [create_notification]
        rw [if_neg (by simpa using hy)]

theorem C9_notification_guard_witness :
    create_notification [] (some 1) (some 2) "post_reaction" "t" "m" =
      (some ⟨1, some 2, "post_reaction", "t", "m"⟩,
        [(⟨1, some 2, "post_reaction", "t", "m"⟩ : Notif)]) := by
  exact (C9_notification_guard [] (some 1) (some 2) "post_reaction" "t" "m").2.2 1
    rfl (by decide)

/-! ## Aggregate-cache lemmas -/

theorem cacheGet_cacheDelete (c : Cache) (key : Nat × Nat) :
    cacheGet (cacheDelete c key) key = none := by
  rw [cacheGet]
  have h : List.find? (fun e => e.1 == key) (cacheDelete c key) = none := by
    rw [List.find?_eq_none]
    intro e he
    rw [cacheDelete] at he
    have hm := List.mem_filter.mp he
    simpa using hm.2
  rw [h]
  rfl

/-- C6 (amended): on the HTTP toggle path every outcome deletes the
target's cache entry, so the next `get_reaction_summary_cached` read
returns exactly the per-kind count of live reaction rows (zero-filled for
kinds with no rows).  The WebSocket toggle path performs no invalidation:
whenever a cache entry for the target exists, the summary it broadcasts
is that stale entry and the cache is left unchanged (see the
counterexample for the resulting wrong read). -/
theorem C6_cache_invalidation_amended :
    (∀ (st : RState) (u ct oid : Nat) (k : String),
      (get_reaction_summary_cached (toggle st u ct oid k).2 ct oid).1 =
        computeSummary (toggle st u ct oid k).2.store ct oid) ∧
    (∀ (st : RState) (u ct oid : Nat) (k : String) (s : RSummary),
      cacheGet st.cache (ct, oid) = some s →
      (handle_toggle st u ct oid k).2.1 = s ∧
      (handle_toggle st u ct oid k).2.2.cache = st.cache) := by
  constructor
  · intro st u ct oid k
    have hget : cacheGet (toggle st u ct oid k).2.cache (ct, oid) = none :=
      cacheGet_cacheDelete st.cache (ct, oid)
    unfold get_reaction_summary_cached
    rw [hget]
  · intro st u ct oid k s hs
    constructor
    · show (get_reaction_summary_cached
        { st with store := (toggleStore st.store u ct oid k).2 } ct oid).1 = s
      unfold get_reaction_summary_cached
      rw [show cacheGet ({ st with
        store := (toggleStore st.store u ct oid k).2 } : RState).cache (ct, oid) =
          some s from hs]
    · show (get_reaction_summary_cached
        { st with store := (toggleStore st.store u ct oid k).2 } ct oid).2.cache =
          st.cache
      unfold get_reaction_summary_cached
      rw [show cacheGet ({ st with
        store := (toggleStore st.store u ct oid k).2 } : RState).cache (ct, oid) =
          some s from hs]

theorem C6_cache_invalidation_amended_witness :
    cacheGet [((0, 1), ⟨0, 0, 0, 0, 0, 0⟩)] (0, 1) = some ⟨0, 0, 0, 0, 0, 0⟩ ∧
    (handle_toggle ⟨[], [((0, 1), ⟨0, 0, 0, 0, 0, 0⟩)]⟩ 1 0 1 "like").2.1 =
      ⟨0, 0, 0, 0, 0, 0⟩ ∧
    (handle_toggle ⟨[], [((0, 1), ⟨0, 0, 0, 0, 0, 0⟩)]⟩ 1 0 1 "like").2.2.cache =
      [((0, 1), ⟨0, 0, 0, 0, 0, 0⟩)] := by
  have h := C6_cache_invalidation_amended.2 ⟨[], [((0, 1), ⟨0, 0, 0, 0, 0, 0⟩)]⟩
    1 0 1 "like" ⟨0, 0, 0, 0, 0, 0⟩ (by decide)
  exact ⟨by decide, h.1, h.2⟩

/-- C6 counterexample: a target whose summary was cached (all zeros, the
correct value at the time) receives a reaction through the WebSocket
toggle; because that path never invalidates, the next read still returns
the zero summary, not the per-kind count of the live rows. -/
theorem C6_counterexample :
    (get_reaction_summary_cached
        (handle_toggle ⟨[], [((0, 1), ⟨0, 0, 0, 0, 0, 0⟩)]⟩ 1 0 1 "like").2.2
        0 1).1 ≠
      computeSummary
        (handle_toggle ⟨[], [((0, 1), ⟨0, 0, 0, 0, 0, 0⟩)]⟩ 1 0 1 "like").2.2.store
        0 1 := by
  decide

end Igssax
